import Mathlib

/-!
Verification of the dxLink web-socket client protocol engine.

The definitions below are a shallow embedding of the TypeScript sources of
this repository:

* dxlink-websocket-client/src/v3/client.ts, class DXLinkWebSocket: modelled
  as an explicit state record EngineState together with one Lean function
  per method; timers are modelled by a registry from string keys to the
  delay they were scheduled with, and the wall clock by an explicit now
  argument on every operation that reads Date.now().
* the Channel class (channel.ts): modelled both as the per-channel record
  ChannelState inside the engine table and, for the caller-facing channel
  operations, as the free-standing record ChannelObj.
* dxlink-websocket-client/src/v2/auth.ts, class AuthManager: only the
  completion behaviour of auth is needed, modelled by authCompletionActs.

Listener sets are modelled as lists of Listener values; a listener is
identified by lid, and its throws flag records whether invoking it raises
an exception.  The two shapes of fan-out loop found in the source (with and
without a try/catch around the call) are modelled by listenerLoopCaught and
listenerLoopPlain.
-/

/-- Connection state enum from dxlink.ts. -/
inductive DXLinkConnectionState where
  | NOT_CONNECTED
  | CONNECTING
  | CONNECTED
deriving DecidableEq, Repr

/-- Auth state enum from dxlink.ts; these are also the wire values carried by
an AUTH_STATE message, and DXLinkAuthState[state] is the identity on them. -/
inductive DXLinkAuthState where
  | UNAUTHORIZED
  | AUTHORIZING
  | AUTHORIZED
deriving DecidableEq, Repr

/-- Channel status enum from dxlink.ts. -/
inductive DXLinkChannelStatus where
  | REQUESTED
  | OPENED
  | CLOSED
deriving DecidableEq, Repr

/-- Parameter maps and opaque payload bodies, modelled as association lists. -/
abbrev Params := List (String × String)

/-- One entry of a listener set.  lid identifies the listener; throws records
whether invoking it raises an exception. -/
structure Listener where
  lid : Nat
  throws : Bool
deriving DecidableEq, Repr

/-- The for-of loop over a listener set with no try/catch around the call:
Channel.processPayloadMessage (channel.ts) and
DXLinkWebSocket.setConnectionState (client.ts lines 225-227).  Returns the
listeners actually invoked, in order, and whether an exception escaped the
loop: a throwing listener is invoked, but ends the iteration and the
exception propagates to the caller. -/
def listenerLoopPlain : List Listener → List Nat × Bool
  | [] => ([], false)
  | l :: rest =>
    if l.throws then ([l.lid], true)
    else
      let r := listenerLoopPlain rest
      (l.lid :: r.1, r.2)

/-- The for-of loop over a listener set with a try/catch around the call:
Channel.setStatus, Channel.processError (channel.ts) and
DXLinkWebSocket.setAuthState, DXLinkWebSocket.publishError (client.ts).
Returns the listeners invoked, in order, and the listeners whose exception
was caught and logged; every listener is invoked and nothing escapes. -/
def listenerLoopCaught : List Listener → List Nat × List Nat
  | [] => ([], [])
  | l :: rest =>
    let r := listenerLoopCaught rest
    (l.lid :: r.1, if l.throws then l.lid :: r.2 else r.2)

/-- A message handed to Channel.send by a caller: a type tag plus the
service-specific payload body (the protocol-level channel field is not part
of the caller message; Channel.send fills it in). -/
structure ChannelMessage where
  type : String
  payload : Params
deriving DecidableEq, Repr

/-- A message as forwarded by Channel.send to the engine-provided send
function, with the channel field filled in. -/
structure ChannelSentMessage where
  type : String
  channel : Nat
  payload : Params
deriving DecidableEq, Repr

/-- The Channel class of channel.ts: immutable id, service and parameters,
mutable status, three listener sets. -/
structure ChannelObj where
  id : Nat
  service : String
  parameters : Params
  status : DXLinkChannelStatus
  messageListeners : List Listener
  statusListeners : List Listener
  errorListeners : List Listener
deriving DecidableEq, Repr

/-- Channel.send: throws the Error with message Channel is not ready when the
status is not OPENED; otherwise forwards the message with the channel field
set to the channel id. -/
def ChannelObj.send (c : ChannelObj) (m : ChannelMessage) :
    Except String ChannelSentMessage :=
  if c.status ≠ DXLinkChannelStatus.OPENED then Except.error "Channel is not ready"
  else Except.ok { type := m.type, channel := c.id, payload := m.payload }

/-- Channel.clear: empties the three listener sets. -/
def ChannelObj.clearListeners (c : ChannelObj) : ChannelObj :=
  { c with messageListeners := [], statusListeners := [], errorListeners := [] }

/-- Channel.setStatus: a transition where the new status equals the current
one is suppressed; otherwise the status is updated and the status listeners
are notified through the guarded loop.  Returns the updated channel, the
listeners invoked and the listener exceptions logged. -/
def ChannelObj.setStatus (c : ChannelObj) (newStatus : DXLinkChannelStatus) :
    ChannelObj × List Nat × List Nat :=
  if c.status = newStatus then (c, [], [])
  else
    let r := listenerLoopCaught c.statusListeners
    ({ c with status := newStatus }, r.1, r.2)

/-- Channel.close: sends CHANNEL_CANCEL through Channel.send, which throws
when the channel status is not OPENED; on success it then clears the
listener sets and sets the status to CLOSED. -/
def ChannelObj.close (c : ChannelObj) :
    Except String (ChannelObj × ChannelSentMessage) :=
  match c.send { type := "CHANNEL_CANCEL", payload := [] } with
  | Except.error e => Except.error e
  | Except.ok msg =>
    let c1 := c.clearListeners
    Except.ok ((c1.setStatus DXLinkChannelStatus.CLOSED).1, msg)

/-- Channel.processPayloadMessage at the listener level: the plain loop over
the message listeners, with no try/catch. -/
def ChannelObj.processPayloadMessageRun (c : ChannelObj) : List Nat × Bool :=
  listenerLoopPlain c.messageListeners

/-- Channel.processError at the listener level: when the error listener set
is empty the error is only logged; otherwise the guarded loop runs. -/
def ChannelObj.processErrorRun (c : ChannelObj) : List Nat × List Nat :=
  if c.errorListeners = [] then ([], [])
  else listenerLoopCaught c.errorListeners

/-- DXLinkWebSocket.setConnectionState at the listener level (client.ts lines
220-228): a transition where the new state equals the previous one is
suppressed; the listener loop has no try/catch.  Returns the resulting
state, the listeners invoked and whether an exception escaped. -/
def setConnectionStateRun (cur : DXLinkConnectionState) (ls : List Listener)
    (newStatus : DXLinkConnectionState) : DXLinkConnectionState × List Nat × Bool :=
  if cur = newStatus then (cur, [], false)
  else
    let r := listenerLoopPlain ls
    (newStatus, r.1, r.2)

/-- DXLinkWebSocket.setAuthState at the listener level (client.ts lines
249-260): there is no equality guard, and the listener loop has a
try/catch.  Returns the resulting state, the listeners invoked and the
listener exceptions logged. -/
def setAuthStateRun (_cur : DXLinkAuthState) (ls : List Listener)
    (newState : DXLinkAuthState) : DXLinkAuthState × List Nat × List Nat :=
  let r := listenerLoopCaught ls
  (newState, r.1, r.2)

/-- DXLinkWebSocket.publishError at the listener level (client.ts lines
349-362): when the error listener set is empty the error is only logged;
otherwise the guarded loop runs. -/
def publishErrorRun (ls : List Listener) : List Nat × List Nat :=
  if ls = [] then ([], [])
  else listenerLoopCaught ls

/-- A call made on the one-shot completion returned by the v2
AuthManager.auth; reject carries no argument in the source, hence the
single rejectNoValue form. -/
inductive CompletionAct where
  | resolve
  | rejectNoValue
deriving DecidableEq, Repr

/-- The handler that v2 AuthManager.auth registers for the next AUTH_STATE
(auth.ts lines 63-77).  currentState is the value of the AuthManager field
at invocation time; handleAuthState invokes handlers before recording the
new state, so it still holds the previous state.  The result lists the
calls made on the completion, in order: resolve is called unconditionally,
and then, when a previous state was known, resolve again on AUTHORIZED and
reject with no value otherwise. -/
def authCompletionActs (currentState : Option DXLinkAuthState)
    (state : DXLinkAuthState) : List CompletionAct :=
  CompletionAct.resolve ::
    (match currentState with
     | some _ =>
       if state = DXLinkAuthState.AUTHORIZED then [CompletionAct.resolve]
       else [CompletionAct.rejectNoValue]
     | none => [])

/-- The DXLinkWebSocketConfig record; all values in seconds apart from the
log level, which plays no role here. -/
structure Config where
  keepaliveInterval : Int
  keepaliveTimeout : Int
  acceptKeepaliveTimeout : Int
  actionTimeout : Int
deriving DecidableEq, Repr

/-- The defaults applied by the DXLinkWebSocket constructor. -/
def defaultConfig : Config :=
  { keepaliveInterval := 30, keepaliveTimeout := 60,
    acceptKeepaliveTimeout := 60, actionTimeout := 10 }

/-- The DXLinkConnectionDetails record. -/
structure DXLinkConnectionDetails where
  protocolVersion : String
  clientVersion : String
  serverVersion : Option String
  clientKeepaliveTimeout : Option Int
  serverKeepaliveTimeout : Option Int
deriving DecidableEq, Repr

/-- DEFAULT_CONNECTION_DETAILS from client.ts. -/
def defaultConnectionDetails : DXLinkConnectionDetails :=
  { protocolVersion := "0.1", clientVersion := "0.0.0",
    serverVersion := none, clientKeepaliveTimeout := none,
    serverKeepaliveTimeout := none }

/-- A channel as stored in the engine channel table: the state-relevant part
of the Channel object (listener sets are modelled separately on
ChannelObj). -/
structure ChannelState where
  id : Nat
  service : String
  parameters : Params
  status : DXLinkChannelStatus
deriving DecidableEq, Repr

/-- Messages the engine hands to the transport connector, with the fields the
source constructs. -/
inductive OutMessage where
  | setup (version : String) (keepaliveTimeout acceptKeepaliveTimeout : Int)
  | auth (token : String)
  | keepalive
  | connError (error message : String)
  | channelRequest (channel : Nat) (service : String) (parameters : Params)
  | channelCancel (channel : Nat)
  | channelPayload (channel : Nat) (type : String) (payload : Params)
deriving DecidableEq, Repr

/-- Messages delivered by the transport to processMessage.  The connection
level variants are the channel 0 messages; the channel variants carry their
channel id. -/
inductive InMessage where
  | setup (version : String) (keepaliveTimeout : Option Int)
  | authState (state : DXLinkAuthState)
  | connError (error message : String)
  | keepalive
  | channelOpened (channel : Nat)
  | channelClosed (channel : Nat)
  | channelError (channel : Nat)
  | channelPayload (channel : Nat) (type : String)
deriving DecidableEq, Repr

/-- The mutable state of a DXLinkWebSocket instance.

connectorUrl models the connector field: some url when a connector object
exists (its getUrl value), none when it is undefined.  timers models the
timeoutIds registry, mapping each pending key to the delay it was scheduled
with.  timeoutMillsCaptured models the timeoutMills value captured by the
TIMEOUT timer closure in processSetupMessage.  outbox records every message
handed to the connector, in order.

The last four fields are history (ghost) observations used only to state
properties; no operation reads them: tokenEverSet records that setAuthToken
was called at least once in the whole run, and setupObserved,
authorizedSignalled and setupNoTokenObserved record, for the current
transport session, that a SETUP was processed, that an AUTH_STATE with
state AUTHORIZED was processed, and that a SETUP was processed while no
auth token was remembered.  The session observations are reset where the
source resets its per-session fields, in reconnect and disconnect. -/
structure EngineState where
  config : Config
  connectorUrl : Option String
  connectionState : DXLinkConnectionState
  connectionDetails : DXLinkConnectionDetails
  authState : DXLinkAuthState
  isFirstAuthState : Bool
  lastSettedAuthToken : Option String
  lastReceivedMillis : Int
  lastSentMillis : Int
  reconnectAttempts : Nat
  globalChannelId : Nat
  channels : List ChannelState
  timers : List (String × Int)
  timeoutMillsCaptured : Int
  outbox : List OutMessage
  tokenEverSet : Bool
  setupObserved : Bool
  authorizedSignalled : Bool
  setupNoTokenObserved : Bool
deriving DecidableEq, Repr

/-- The field initialisers of DXLinkWebSocket for a given configuration. -/
def initialState (cfg : Config) : EngineState :=
  { config := cfg, connectorUrl := none,
    connectionState := DXLinkConnectionState.NOT_CONNECTED,
    connectionDetails := defaultConnectionDetails,
    authState := DXLinkAuthState.UNAUTHORIZED,
    isFirstAuthState := true, lastSettedAuthToken := none,
    lastReceivedMillis := 0, lastSentMillis := 0, reconnectAttempts := 0,
    globalChannelId := 1, channels := [], timers := [],
    timeoutMillsCaptured := 0, outbox := [], tokenEverSet := false,
    setupObserved := false, authorizedSignalled := false,
    setupNoTokenObserved := false }

/-- Replace any pending timer for key by one with the given delay. -/
def timersSet (ts : List (String × Int)) (key : String) (delay : Int) :
    List (String × Int) :=
  (key, delay) :: ts.filter (fun kv => kv.1 ≠ key)

/-- Remove any pending timer for key. -/
def timersCancel (ts : List (String × Int)) (key : String) :
    List (String × Int) :=
  ts.filter (fun kv => kv.1 ≠ key)

/-- The delay the pending timer for key was scheduled with, if any. -/
def timersGet (ts : List (String × Int)) (key : String) : Option Int :=
  (ts.find? (fun kv => kv.1 == key)).map (fun kv => kv.2)

/-- schedule: cancels any pending timer for the key, then schedules anew. -/
def schedule (s : EngineState) (key : String) (delay : Int) : EngineState :=
  { s with timers := timersSet s.timers key delay }

/-- cancelSchedule: cancels any pending timer for the key. -/
def cancelSchedule (s : EngineState) (key : String) : EngineState :=
  { s with timers := timersCancel s.timers key }

/-- setConnectionState restricted to the state fields (the listener fan-out
is modelled by setConnectionStateRun); the equality guard only suppresses
the notification, so on the state itself this is a plain field update. -/
def engineSetConnectionState (s : EngineState) (st : DXLinkConnectionState) :
    EngineState :=
  if s.connectionState = st then s else { s with connectionState := st }

/-- setAuthState restricted to the state fields (the listener fan-out is
modelled by setAuthStateRun); there is no equality guard. -/
def engineSetAuthState (s : EngineState) (st : DXLinkAuthState) : EngineState :=
  { s with authState := st }

/-- scheduleKeepalive: rearms the KEEPALIVE timer at keepaliveInterval
seconds. -/
def scheduleKeepalive (s : EngineState) : EngineState :=
  schedule s "KEEPALIVE" (s.config.keepaliveInterval * 1000)

/-- sendMessage: hands the message to the connector, rearms the keepalive
timer and records the send time. -/
def sendMessage (s : EngineState) (m : OutMessage) (now : Int) : EngineState :=
  let s1 := { s with outbox := s.outbox ++ [m] }
  let s2 := scheduleKeepalive s1
  { s2 with lastSentMillis := now }

/-- sendAuthMessage: sets the auth state to AUTHORIZING and sends AUTH. -/
def sendAuthMessage (s : EngineState) (token : String) (now : Int) : EngineState :=
  let s1 := engineSetAuthState s DXLinkAuthState.AUTHORIZING
  sendMessage s1 (OutMessage.auth token) now

/-- disconnect (client.ts lines 156-175): a no-op when already NOT_CONNECTED;
otherwise stops and discards the connector, cancels every timer, resets the
transient state, and sets the connection state to NOT_CONNECTED and the
auth state to UNAUTHORIZED.  The per-session history observations are reset
together with the per-session source fields. -/
def disconnect (s : EngineState) : EngineState :=
  if s.connectionState = DXLinkConnectionState.NOT_CONNECTED then s
  else
    let s1 :=
      { s with
        connectorUrl := none, timers := [],
        connectionDetails := defaultConnectionDetails,
        lastReceivedMillis := 0, lastSentMillis := 0,
        isFirstAuthState := true, reconnectAttempts := 0,
        setupObserved := false, authorizedSignalled := false,
        setupNoTokenObserved := false }
    let s2 := engineSetConnectionState s1 DXLinkConnectionState.NOT_CONNECTED
    engineSetAuthState s2 DXLinkAuthState.UNAUTHORIZED

/-- reconnect (client.ts lines 120-154): a no-op when NOT_CONNECTED or the
connector is undefined; otherwise stops the transport (the connector object
is kept), cancels every timer, resets the per-session state, increments the
reconnect attempt counter, sets the connection state to CONNECTING and
schedules the RECONNECT timer at reconnectAttempts * 1000 milliseconds,
the counter having just been incremented. -/
def reconnect (s : EngineState) : EngineState :=
  if s.connectionState = DXLinkConnectionState.NOT_CONNECTED ∨ s.connectorUrl = none
  then s
  else
    let s1 :=
      { s with
        timers := [],
        connectionDetails := defaultConnectionDetails,
        lastReceivedMillis := 0, lastSentMillis := 0,
        isFirstAuthState := true,
        reconnectAttempts := s.reconnectAttempts + 1,
        setupObserved := false, authorizedSignalled := false,
        setupNoTokenObserved := false }
    let s2 := engineSetConnectionState s1 DXLinkConnectionState.CONNECTING
    schedule s2 "RECONNECT" ((s2.reconnectAttempts : Int) * 1000)

/-- connect (client.ts lines 88-118): a no-op when a connector for the same
url already exists; otherwise tears down prior state via disconnect, sets
the connection state to CONNECTING and instantiates a connector for the
url.  The transport open callback arrives later as its own event. -/
def connect (s : EngineState) (url : String) : EngineState :=
  if s.connectorUrl = some url then s
  else
    let s1 := disconnect s
    let s2 := engineSetConnectionState s1 DXLinkConnectionState.CONNECTING
    { s2 with connectorUrl := some url }

/-- setAuthToken (client.ts lines 184-190): remembers the token (and the
history observation that a token was ever set) and, when CONNECTED, sends
AUTH immediately. -/
def setAuthToken (s : EngineState) (token : String) (now : Int) : EngineState :=
  let s1 := { s with lastSettedAuthToken := some token, tokenEverSet := true }
  if s1.connectionState = DXLinkConnectionState.CONNECTED then
    sendAuthMessage s1 token now
  else s1

/-- Update the status of the channel with the given id in the table. -/
def channelsSetStatus (cs : List ChannelState) (id : Nat)
    (st : DXLinkChannelStatus) : List ChannelState :=
  cs.map (fun c => if c.id = id then { c with status := st } else c)

/-- requestChannel (client.ts lines 470-479): sends CHANNEL_REQUEST with the
channel id, service and parameters, and returns the channel with its status
set back to REQUESTED (processStatusRequested). -/
def requestChannel (s : EngineState) (c : ChannelState) (now : Int) :
    EngineState × ChannelState :=
  (sendMessage s (OutMessage.channelRequest c.id c.service c.parameters) now,
   { c with status := DXLinkChannelStatus.REQUESTED })

/-- The iteration of requestActiveChannels over the channel table: channels
whose status is CLOSED are deleted from the table; every other channel is
passed to requestChannel. -/
def requestActiveChannelsGo (now : Int) :
    EngineState → List ChannelState → EngineState × List ChannelState
  | s, [] => (s, [])
  | s, c :: rest =>
    if c.status = DXLinkChannelStatus.CLOSED then
      requestActiveChannelsGo now s rest
    else
      let p := requestChannel s c now
      let q := requestActiveChannelsGo now p.1 rest
      (q.1, p.2 :: q.2)

/-- requestActiveChannels (client.ts lines 388-397). -/
def requestActiveChannels (s : EngineState) (now : Int) : EngineState :=
  let p := requestActiveChannelsGo now s s.channels
  { p.1 with channels := p.2 }

/-- openChannel (client.ts lines 201-218): allocates the next odd id (step
2), registers a channel with status REQUESTED and, when the connection is
CONNECTED and the auth state AUTHORIZED, requests it immediately. -/
def openChannelOp (s : EngineState) (service : String) (parameters : Params)
    (now : Int) : EngineState :=
  let cid := s.globalChannelId
  let s1 := { s with globalChannelId := cid + 2 }
  let c : ChannelState :=
    { id := cid, service := service, parameters := parameters,
      status := DXLinkChannelStatus.REQUESTED }
  let s2 := { s1 with channels := s1.channels ++ [c] }
  if s2.connectionState = DXLinkConnectionState.CONNECTED ∧
     s2.authState = DXLinkAuthState.AUTHORIZED then
    let p := requestChannel s2 c now
    { p.1 with channels := channelsSetStatus p.1.channels cid p.2.status }
  else s2

/-- A caller invoking close on the channel with the given id: Channel.close
sends CHANNEL_CANCEL through Channel.send, which throws unless the status
is OPENED (in which case the exception propagates to the caller and the
engine state is unchanged); on success the channel status becomes CLOSED. -/
def channelCloseOp (s : EngineState) (cid : Nat) (now : Int) : EngineState :=
  match s.channels.find? (fun c => c.id == cid) with
  | none => s
  | some c =>
    if c.status = DXLinkChannelStatus.OPENED then
      let s1 := sendMessage s (OutMessage.channelCancel cid) now
      { s1 with channels := channelsSetStatus s1.channels cid DXLinkChannelStatus.CLOSED }
    else s

/-- A caller invoking send on the channel with the given id: Channel.send
throws unless the status is OPENED; on success the payload message is
forwarded with the channel field set to the id. -/
def channelSendOp (s : EngineState) (cid : Nat) (ty : String) (payload : Params)
    (now : Int) : EngineState :=
  match s.channels.find? (fun c => c.id == cid) with
  | none => s
  | some c =>
    if c.status = DXLinkChannelStatus.OPENED then
      sendMessage s (OutMessage.channelPayload cid ty payload) now
    else s

/-- processSetupMessage (client.ts lines 320-347): cancels SETUP_TIMEOUT;
when the connection state is CONNECTING or CONNECTED, merges the server
details, resets the reconnect attempt counter and, when no auth token is
remembered, sets the connection state to CONNECTED; finally schedules the
TIMEOUT timer at (keepaliveTimeout with default 60) * 1000 milliseconds and
records that value as the closure capture for the TIMEOUT callback.  The
history observations setupObserved and setupNoTokenObserved are recorded at
entry. -/
def processSetupMessage (s : EngineState) (version : String)
    (keepaliveTimeout : Option Int) : EngineState :=
  let s0 := cancelSchedule s "SETUP_TIMEOUT"
  let s1 :=
    { s0 with
      setupObserved := true,
      setupNoTokenObserved :=
        s0.setupNoTokenObserved || s0.lastSettedAuthToken.isNone }
  let s2 :=
    if s1.connectionState = DXLinkConnectionState.CONNECTING ∨
       s1.connectionState = DXLinkConnectionState.CONNECTED then
      let s2a := { s1 with
        connectionDetails := { s1.connectionDetails with
          serverVersion := some version,
          clientKeepaliveTimeout := some s1.config.keepaliveTimeout,
          serverKeepaliveTimeout := keepaliveTimeout },
        reconnectAttempts := 0 }
      if s2a.lastSettedAuthToken = none then
        engineSetConnectionState s2a DXLinkConnectionState.CONNECTED
      else s2a
    else s1
  let timeoutMills := (keepaliveTimeout.getD 60) * 1000
  schedule { s2 with timeoutMillsCaptured := timeoutMills } "TIMEOUT" timeoutMills

/-- processAuthStateMessage (client.ts lines 364-386): cancels
AUTH_STATE_TIMEOUT; the first AUTH_STATE of the session only clears the
first-marker, later ones with state UNAUTHORIZED forget the remembered
token; on AUTHORIZED the connection state becomes CONNECTED and the active
channels are re-requested; finally the auth state is set to the signalled
value.  The history observation authorizedSignalled is recorded on
AUTHORIZED. -/
def processAuthStateMessage (s : EngineState) (state : DXLinkAuthState)
    (now : Int) : EngineState :=
  let s0 := cancelSchedule s "AUTH_STATE_TIMEOUT"
  let s1 :=
    if s0.isFirstAuthState then { s0 with isFirstAuthState := false }
    else if state = DXLinkAuthState.UNAUTHORIZED then
      { s0 with lastSettedAuthToken := none }
    else s0
  let s2 :=
    if state = DXLinkAuthState.AUTHORIZED then
      let s2a := engineSetConnectionState { s1 with authorizedSignalled := true }
        DXLinkConnectionState.CONNECTED
      requestActiveChannels s2a now
    else s1
  engineSetAuthState s2 state

/-- The prefix of processMessage (client.ts lines 262-272): records the
receive time and sends an opportunistic KEEPALIVE when nothing was sent for
keepaliveInterval seconds. -/
def processMessagePre (s : EngineState) (now : Int) : EngineState :=
  let s0 := { s with lastReceivedMillis := now }
  if s0.lastReceivedMillis - s0.lastSentMillis ≥
     s0.config.keepaliveInterval * 1000 then
    sendMessage s0 OutMessage.keepalive now
  else s0

/-- processMessage (client.ts lines 262-318): the prefix above, then a
dispatch on the message.  Connection level ERROR and KEEPALIVE only involve
listeners or are ignored; channel messages are dispatched to the channel
found in the table (unknown channels are logged and dropped). -/
def processMessage (s : EngineState) (m : InMessage) (now : Int) : EngineState :=
  let s1 := processMessagePre s now
  match m with
  | InMessage.setup version keepaliveTimeout =>
    processSetupMessage s1 version keepaliveTimeout
  | InMessage.authState st => processAuthStateMessage s1 st now
  | InMessage.connError _ _ => s1
  | InMessage.keepalive => s1
  | InMessage.channelOpened ch =>
    if ch ≠ 0 ∧ (s1.channels.find? (fun c => c.id == ch)).isSome then
      { s1 with channels := channelsSetStatus s1.channels ch DXLinkChannelStatus.OPENED }
    else s1
  | InMessage.channelClosed ch =>
    if ch ≠ 0 ∧ (s1.channels.find? (fun c => c.id == ch)).isSome then
      { s1 with channels := channelsSetStatus s1.channels ch DXLinkChannelStatus.CLOSED }
    else s1
  | InMessage.channelError _ => s1
  | InMessage.channelPayload _ _ => s1

/-- processTransportOpen (client.ts lines 399-458): schedules SETUP_TIMEOUT,
sends the client SETUP, schedules AUTH_STATE_TIMEOUT and, when a token is
remembered, sends AUTH. -/
def processTransportOpen (s : EngineState) (now : Int) : EngineState :=
  let s1 := schedule s "SETUP_TIMEOUT" (s.config.actionTimeout * 1000)
  let s2 := sendMessage s1
    (OutMessage.setup
      (s1.connectionDetails.protocolVersion ++ "-" ++ s1.connectionDetails.clientVersion)
      s1.config.keepaliveTimeout s1.config.acceptKeepaliveTimeout) now
  let s3 := schedule s2 "AUTH_STATE_TIMEOUT" (s2.config.actionTimeout * 1000)
  match s3.lastSettedAuthToken with
  | some t => sendAuthMessage s3 t now
  | none => s3

/-- processTransportClose (client.ts lines 460-468): when the auth state is
UNAUTHORIZED the token is forgotten and the engine disconnects; otherwise
it reconnects. -/
def processTransportClose (s : EngineState) : EngineState :=
  if s.authState = DXLinkAuthState.UNAUTHORIZED then
    disconnect { s with lastSettedAuthToken := none }
  else reconnect s

/-- timeoutCheck (client.ts lines 481-497): when nothing was received for
timeoutMills, sends ERROR TIMEOUT and reconnects; otherwise reschedules
TIMEOUT at the maximum of 200 and the remaining budget. -/
def timeoutCheck (s : EngineState) (timeoutMills : Int) (now : Int) : EngineState :=
  let noKeepaliveDuration := now - s.lastReceivedMillis
  if noKeepaliveDuration ≥ timeoutMills then
    let s1 := sendMessage s
      (OutMessage.connError "TIMEOUT"
        ("No keepalive received for " ++ toString noKeepaliveDuration ++ "ms")) now
    reconnect s1
  else
    schedule s "TIMEOUT" (max 200 (timeoutMills - noKeepaliveDuration))

/-- A pending timer firing.  The pending entry is consumed, then the callback
the source installs for that key runs: the SETUP_TIMEOUT and
AUTH_STATE_TIMEOUT callbacks send ERROR TIMEOUT, publish it and disconnect;
the KEEPALIVE callback sends KEEPALIVE and reschedules itself; the TIMEOUT
callback is timeoutCheck with the captured timeoutMills; the RECONNECT
callback restarts the transport, which changes no engine state (the open
callback arrives later as its own event). -/
def fireTimer (s : EngineState) (key : String) (now : Int) : EngineState :=
  match timersGet s.timers key with
  | none => s
  | some _ =>
    let s0 := cancelSchedule s key
    if key = "SETUP_TIMEOUT" then
      let s1 := sendMessage s0
        (OutMessage.connError "TIMEOUT"
          ("No setup message received for " ++ toString s0.config.actionTimeout ++ "s")) now
      disconnect s1
    else if key = "AUTH_STATE_TIMEOUT" then
      let s1 := sendMessage s0
        (OutMessage.connError "TIMEOUT"
          ("No auth state message received for " ++ toString s0.config.actionTimeout ++ "s")) now
      disconnect s1
    else if key = "KEEPALIVE" then
      scheduleKeepalive (sendMessage s0 OutMessage.keepalive now)
    else if key = "TIMEOUT" then
      timeoutCheck s0 s0.timeoutMillsCaptured now
    else s0

/-- The external events a DXLinkWebSocket instance reacts to: the public
client surface, the three transport callbacks and timer firings.  Every
event that reads the clock carries its now value. -/
inductive Event where
  | connect (url : String)
  | disconnect
  | reconnect
  | setAuthToken (token : String) (now : Int)
  | openChannel (service : String) (parameters : Params) (now : Int)
  | channelClose (id : Nat) (now : Int)
  | channelSend (id : Nat) (type : String) (payload : Params) (now : Int)
  | transportOpen (now : Int)
  | transportClose
  | receive (m : InMessage) (now : Int)
  | timerFire (key : String) (now : Int)
deriving DecidableEq, Repr

/-- One engine step.  The transport callbacks can only be delivered while a
connector exists. -/
def step (s : EngineState) (e : Event) : EngineState :=
  match e with
  | Event.connect url => connect s url
  | Event.disconnect => disconnect s
  | Event.reconnect => reconnect s
  | Event.setAuthToken t now => setAuthToken s t now
  | Event.openChannel sv p now => openChannelOp s sv p now
  | Event.channelClose cid now => channelCloseOp s cid now
  | Event.channelSend cid ty p now => channelSendOp s cid ty p now
  | Event.transportOpen now =>
    if s.connectorUrl = none then s else processTransportOpen s now
  | Event.transportClose =>
    if s.connectorUrl = none then s else processTransportClose s
  | Event.receive m now =>
    if s.connectorUrl = none then s else processMessage s m now
  | Event.timerFire key now => fireTimer s key now

/-- The engine state after a sequence of events from a fresh instance. -/
def run (cfg : Config) (es : List Event) : EngineState :=
  es.foldl step (initialState cfg)

/-- On the state fields, setConnectionState is a plain field update: the
equality guard only suppresses the listener notification. -/
theorem engineSetConnectionState_eq (s : EngineState) (st : DXLinkConnectionState) :
    engineSetConnectionState s st = { s with connectionState := st } := by
  unfold engineSetConnectionState
  split
  · rename_i h
    cases s
    simp_all
  · rfl

/-- Looking up a key right after scheduling it yields the scheduled delay. -/
theorem timersGet_timersSet_self (ts : List (String × Int)) (key : String)
    (delay : Int) : timersGet (timersSet ts key delay) key = some delay := by
  simp [timersGet, timersSet]

/-- The guarded listener loop invokes every listener, in order. -/
theorem listenerLoopCaught_invoked (ls : List Listener) :
    (listenerLoopCaught ls).1 = ls.map Listener.lid := by
  induction ls with
  | nil => rfl
  | cons l rest ih => simp [listenerLoopCaught, ih]

/-- The guarded listener loop logs exactly the exceptions of the throwing
listeners, in order. -/
theorem listenerLoopCaught_logged (ls : List Listener) :
    (listenerLoopCaught ls).2 = (ls.filter Listener.throws).map Listener.lid := by
  induction ls with
  | nil => rfl
  | cons l rest ih =>
    by_cases h : l.throws <;> simp [listenerLoopCaught, List.filter_cons, h, ih]

/-- The plain listener loop, when no listener throws, invokes every listener
and lets nothing escape. -/
theorem listenerLoopPlain_no_throw (ls : List Listener)
    (h : ∀ l ∈ ls, l.throws = false) :
    listenerLoopPlain ls = (ls.map Listener.lid, false) := by
  induction ls with
  | nil => rfl
  | cons l rest ih =>
    have hl : l.throws = false := h l (List.mem_cons_self l rest)
    have ih1 := ih (fun x hx => h x (List.mem_cons_of_mem l hx))
    simp [listenerLoopPlain, hl, ih1]

/-- The plain listener loop stops at the first throwing listener: everything
before it and the throwing listener itself are invoked, nothing after it
is, and the exception escapes. -/
theorem listenerLoopPlain_throw (pre post : List Listener) (t : Listener)
    (hpre : ∀ l ∈ pre, l.throws = false) (ht : t.throws = true) :
    listenerLoopPlain (pre ++ t :: post) = ((pre ++ [t]).map Listener.lid, true) := by
  induction pre with
  | nil => simp [listenerLoopPlain, ht]
  | cons l rest ih =>
    have hl : l.throws = false := hpre l (List.mem_cons_self l rest)
    have ih1 := ih (fun x hx => hpre x (List.mem_cons_of_mem l hx))
    simp [listenerLoopPlain, hl, ih1]

/-- The reachability invariant of the engine: while NOT_CONNECTED no
connector exists; while no connector exists the next AUTH_STATE counts as
the first of its session; and CONNECTED is only ever reached after the
current session either saw AUTHORIZED signalled or processed a SETUP while
no auth token was remembered. -/
def EngineInv (s : EngineState) : Prop :=
  (s.connectionState = DXLinkConnectionState.NOT_CONNECTED → s.connectorUrl = none) ∧
  (s.connectorUrl = none → s.isFirstAuthState = true) ∧
  (s.connectionState = DXLinkConnectionState.CONNECTED →
    s.authorizedSignalled = true ∨ s.setupNoTokenObserved = true)

/-- Transfer of the invariant along equality of the five fields it reads. -/
theorem inv_of_fields {s s' : EngineState}
    (hc : s'.connectionState = s.connectionState)
    (hu : s'.connectorUrl = s.connectorUrl)
    (hf : s'.isFirstAuthState = s.isFirstAuthState)
    (ha : s'.authorizedSignalled = s.authorizedSignalled)
    (hn : s'.setupNoTokenObserved = s.setupNoTokenObserved)
    (h : EngineInv s) : EngineInv s' := by
  unfold EngineInv at h ⊢
  rw [hc, hu, hf, ha, hn]
  exact h

theorem inv_disconnect {s : EngineState} (h : EngineInv s) : EngineInv (disconnect s) := by
  unfold disconnect
  split
  · exact h
  · simp [EngineInv, engineSetConnectionState_eq, engineSetAuthState]

theorem inv_reconnect {s : EngineState} (h : EngineInv s) : EngineInv (reconnect s) := by
  unfold reconnect
  split
  · exact h
  · simp [EngineInv, engineSetConnectionState_eq, schedule]

theorem inv_connect {s : EngineState} (url : String) (h : EngineInv s) :
    EngineInv (connect s url) := by
  unfold connect
  split
  · exact h
  · simp [EngineInv, engineSetConnectionState_eq]

theorem inv_setAuthToken {s : EngineState} (t : String) (now : Int) (h : EngineInv s) :
    EngineInv (setAuthToken s t now) := by
  unfold setAuthToken
  dsimp only
  split <;>
    exact inv_of_fields rfl rfl rfl rfl rfl h

theorem inv_openChannelOp {s : EngineState} (sv : String) (p : Params)
    (now : Int) (h : EngineInv s) : EngineInv (openChannelOp s sv p now) := by
  unfold openChannelOp
  dsimp only
  split <;>
    exact inv_of_fields rfl rfl rfl rfl rfl h

theorem inv_channelCloseOp {s : EngineState} (cid : Nat) (now : Int)
    (h : EngineInv s) : EngineInv (channelCloseOp s cid now) := by
  unfold channelCloseOp
  split
  · exact h
  · split <;> exact inv_of_fields rfl rfl rfl rfl rfl h

theorem inv_channelSendOp {s : EngineState} (cid : Nat) (ty : String)
    (p : Params) (now : Int) (h : EngineInv s) : EngineInv (channelSendOp s cid ty p now) := by
  unfold channelSendOp
  split
  · exact h
  · split <;> exact inv_of_fields rfl rfl rfl rfl rfl h

/-- The channel iteration of requestActiveChannels leaves every engine field
other than the send effects untouched. -/
theorem requestActiveChannelsGo_fields (now : Int) (l : List ChannelState) :
    ∀ s : EngineState,
      (requestActiveChannelsGo now s l).1.connectionState = s.connectionState ∧
      (requestActiveChannelsGo now s l).1.connectorUrl = s.connectorUrl ∧
      (requestActiveChannelsGo now s l).1.isFirstAuthState = s.isFirstAuthState ∧
      (requestActiveChannelsGo now s l).1.authorizedSignalled = s.authorizedSignalled ∧
      (requestActiveChannelsGo now s l).1.setupNoTokenObserved = s.setupNoTokenObserved ∧
      (requestActiveChannelsGo now s l).1.lastSettedAuthToken = s.lastSettedAuthToken ∧
      (requestActiveChannelsGo now s l).1.authState = s.authState := by
  induction l with
  | nil => intro s; exact ⟨rfl, rfl, rfl, rfl, rfl, rfl, rfl⟩
  | cons c rest ih =>
    intro s
    simp only [requestActiveChannelsGo]
    split
    · exact ih s
    · exact ih (requestChannel s c now).1

/-- The channel iteration of requestActiveChannels returns exactly the
non-CLOSED channels with their status set back to REQUESTED, and appends
exactly one CHANNEL_REQUEST per such channel, in table order, carrying the
channel id, service and parameters. -/
theorem requestActiveChannelsGo_spec (now : Int) (l : List ChannelState) :
    ∀ s : EngineState,
      (requestActiveChannelsGo now s l).2 =
        (l.filter (fun c => c.status ≠ DXLinkChannelStatus.CLOSED)).map
          (fun c => { c with status := DXLinkChannelStatus.REQUESTED }) ∧
      (requestActiveChannelsGo now s l).1.outbox =
        s.outbox ++
          (l.filter (fun c => c.status ≠ DXLinkChannelStatus.CLOSED)).map
            (fun c => OutMessage.channelRequest c.id c.service c.parameters) := by
  induction l with
  | nil =>
    intro s
    refine ⟨rfl, ?_⟩
    simp [requestActiveChannelsGo]
  | cons c rest ih =>
    intro s
    simp only [requestActiveChannelsGo]
    split
    · rename_i hcl
      obtain ⟨ih1, ih2⟩ := ih s
      refine ⟨?_, ?_⟩ <;> simp [List.filter_cons, hcl, ih1, ih2]
    · rename_i hcl
      obtain ⟨ih1, ih2⟩ := ih (requestChannel s c now).1
      have houtbox : (requestChannel s c now).1.outbox =
          s.outbox ++ [OutMessage.channelRequest c.id c.service c.parameters] := rfl
      refine ⟨?_, ?_⟩
      · rw [ih1]
        simp [List.filter_cons, hcl, requestChannel]
      · rw [ih2, houtbox]
        simp [List.filter_cons, hcl]

/-- processMessagePre touches only the receive time and the send effects. -/
theorem processMessagePre_fields (s : EngineState) (now : Int) :
    (processMessagePre s now).connectionState = s.connectionState ∧
    (processMessagePre s now).connectorUrl = s.connectorUrl ∧
    (processMessagePre s now).isFirstAuthState = s.isFirstAuthState ∧
    (processMessagePre s now).lastSettedAuthToken = s.lastSettedAuthToken ∧
    (processMessagePre s now).authorizedSignalled = s.authorizedSignalled ∧
    (processMessagePre s now).setupNoTokenObserved = s.setupNoTokenObserved ∧
    (processMessagePre s now).reconnectAttempts = s.reconnectAttempts ∧
    (processMessagePre s now).channels = s.channels := by
  unfold processMessagePre
  dsimp only
  split <;> exact ⟨rfl, rfl, rfl, rfl, rfl, rfl, rfl, rfl⟩

/-- processSetupMessage: the connector, first-auth marker and AUTHORIZED
observation are untouched; the no-token SETUP observation is recorded; and
the connection state either is preserved or becomes CONNECTED, the latter
only when no auth token is remembered. -/
theorem processSetupMessage_fields (s : EngineState) (v : String)
    (kt : Option Int) :
    (processSetupMessage s v kt).connectorUrl = s.connectorUrl ∧
    (processSetupMessage s v kt).isFirstAuthState = s.isFirstAuthState ∧
    (processSetupMessage s v kt).authorizedSignalled = s.authorizedSignalled ∧
    (processSetupMessage s v kt).setupNoTokenObserved =
      (s.setupNoTokenObserved || s.lastSettedAuthToken.isNone) ∧
    ((processSetupMessage s v kt).connectionState = s.connectionState ∨
      ((processSetupMessage s v kt).connectionState = DXLinkConnectionState.CONNECTED ∧
        s.lastSettedAuthToken = none)) := by
  unfold processSetupMessage
  dsimp only
  split
  · split
    · rename_i ht
      refine ⟨?_, ?_, ?_, ?_, Or.inr ⟨?_, ht⟩⟩ <;>
        simp [engineSetConnectionState_eq, schedule, cancelSchedule]
    · exact ⟨rfl, rfl, rfl, rfl, Or.inl rfl⟩
  · exact ⟨rfl, rfl, rfl, rfl, Or.inl rfl⟩

theorem inv_processSetupMessage {s : EngineState} (v : String) (kt : Option Int)
    (h : EngineInv s) : EngineInv (processSetupMessage s v kt) := by
  obtain ⟨h1, h2, h3⟩ := h
  obtain ⟨f1, f2, f3, f4, f5⟩ := processSetupMessage_fields s v kt
  refine ⟨?_, ?_, ?_⟩
  · intro hcs
    rw [f1]
    rcases f5 with hc | ⟨hc, _⟩
    · exact h1 (by rw [hc] at hcs; exact hcs)
    · rw [hc] at hcs; cases hcs
  · intro hu
    rw [f2]
    exact h2 (by rw [f1] at hu; exact hu)
  · intro hcs
    rcases f5 with hc | ⟨_, htok⟩
    · rw [hc] at hcs
      rw [f3, f4]
      rcases h3 hcs with ha | hn
      · exact Or.inl ha
      · exact Or.inr (by rw [hn]; rfl)
    · rw [f3, f4]
      right
      rw [htok]
      simp

theorem requestActiveChannels_connectionState (s : EngineState) (now : Int) :
    (requestActiveChannels s now).connectionState = s.connectionState :=
  (requestActiveChannelsGo_fields now s.channels s).1

theorem requestActiveChannels_connectorUrl (s : EngineState) (now : Int) :
    (requestActiveChannels s now).connectorUrl = s.connectorUrl :=
  (requestActiveChannelsGo_fields now s.channels s).2.1

theorem requestActiveChannels_isFirstAuthState (s : EngineState) (now : Int) :
    (requestActiveChannels s now).isFirstAuthState = s.isFirstAuthState :=
  (requestActiveChannelsGo_fields now s.channels s).2.2.1

theorem requestActiveChannels_authorizedSignalled (s : EngineState) (now : Int) :
    (requestActiveChannels s now).authorizedSignalled = s.authorizedSignalled :=
  (requestActiveChannelsGo_fields now s.channels s).2.2.2.1

theorem requestActiveChannels_setupNoTokenObserved (s : EngineState) (now : Int) :
    (requestActiveChannels s now).setupNoTokenObserved = s.setupNoTokenObserved :=
  (requestActiveChannelsGo_fields now s.channels s).2.2.2.2.1

theorem requestActiveChannels_lastSettedAuthToken (s : EngineState) (now : Int) :
    (requestActiveChannels s now).lastSettedAuthToken = s.lastSettedAuthToken :=
  (requestActiveChannelsGo_fields now s.channels s).2.2.2.2.2.1

theorem processAuthStateMessage_connectorUrl (s : EngineState)
    (st : DXLinkAuthState) (now : Int) :
    (processAuthStateMessage s st now).connectorUrl = s.connectorUrl := by
  unfold processAuthStateMessage
  dsimp only
  split_ifs <;>
    simp_all [engineSetAuthState, engineSetConnectionState_eq, cancelSchedule,
      requestActiveChannels_connectorUrl]

theorem processAuthStateMessage_setupNoTokenObserved (s : EngineState)
    (st : DXLinkAuthState) (now : Int) :
    (processAuthStateMessage s st now).setupNoTokenObserved = s.setupNoTokenObserved := by
  unfold processAuthStateMessage
  dsimp only
  split_ifs <;>
    simp_all [engineSetAuthState, engineSetConnectionState_eq, cancelSchedule,
      requestActiveChannels_setupNoTokenObserved]

theorem processAuthStateMessage_authorized (s : EngineState) (now : Int) :
    (processAuthStateMessage s DXLinkAuthState.AUTHORIZED now).connectionState =
      DXLinkConnectionState.CONNECTED ∧
    (processAuthStateMessage s DXLinkAuthState.AUTHORIZED now).authorizedSignalled = true := by
  unfold processAuthStateMessage
  dsimp only
  split_ifs <;>
    simp_all [engineSetAuthState, engineSetConnectionState_eq, cancelSchedule,
      requestActiveChannels_connectionState, requestActiveChannels_authorizedSignalled]

theorem processAuthStateMessage_not_authorized (s : EngineState)
    (st : DXLinkAuthState) (now : Int) (hst : st ≠ DXLinkAuthState.AUTHORIZED) :
    (processAuthStateMessage s st now).connectionState = s.connectionState ∧
    (processAuthStateMessage s st now).authorizedSignalled = s.authorizedSignalled := by
  unfold processAuthStateMessage
  dsimp only
  split_ifs <;>
    simp_all [engineSetAuthState, engineSetConnectionState_eq, cancelSchedule]

/-- The first AUTH_STATE of a transport session leaves the remembered token
unchanged, whatever its state value. -/
theorem processAuthStateMessage_first_keeps_token (s : EngineState)
    (st : DXLinkAuthState) (now : Int) (h : s.isFirstAuthState = true) :
    (processAuthStateMessage s st now).lastSettedAuthToken = s.lastSettedAuthToken := by
  unfold processAuthStateMessage
  dsimp only
  split_ifs <;>
    simp_all [engineSetAuthState, engineSetConnectionState_eq, cancelSchedule,
      requestActiveChannels_lastSettedAuthToken]

/-- A later AUTH_STATE with state UNAUTHORIZED clears the remembered token. -/
theorem processAuthStateMessage_second_unauthorized_clears (s : EngineState)
    (now : Int) (h : s.isFirstAuthState = false) :
    (processAuthStateMessage s DXLinkAuthState.UNAUTHORIZED now).lastSettedAuthToken
      = none := by
  unfold processAuthStateMessage
  dsimp only
  split_ifs <;>
    simp_all [engineSetAuthState, engineSetConnectionState_eq, cancelSchedule]

theorem inv_processAuthStateMessage {s : EngineState} (st : DXLinkAuthState)
    (now : Int) (hu : s.connectorUrl ≠ none) (h : EngineInv s) :
    EngineInv (processAuthStateMessage s st now) := by
  obtain ⟨h1, h2, h3⟩ := h
  have hurl := processAuthStateMessage_connectorUrl s st now
  have hflag := processAuthStateMessage_setupNoTokenObserved s st now
  by_cases hst : st = DXLinkAuthState.AUTHORIZED
  · subst hst
    obtain ⟨hc, ha⟩ := processAuthStateMessage_authorized s now
    refine ⟨?_, ?_, ?_⟩
    · intro hcs
      rw [hc] at hcs
      cases hcs
    · intro hun
      rw [hurl] at hun
      exact absurd hun hu
    · intro _
      exact Or.inl ha
  · obtain ⟨hc, ha⟩ := processAuthStateMessage_not_authorized s st now hst
    refine ⟨?_, ?_, ?_⟩
    · intro hcs
      rw [hurl]
      exact h1 (by rw [hc] at hcs; exact hcs)
    · intro hun
      rw [hurl] at hun
      exact absurd hun hu
    · intro hcs
      rw [ha, hflag]
      exact h3 (by rw [hc] at hcs; exact hcs)

theorem inv_processMessagePre {s : EngineState} (now : Int) (h : EngineInv s) :
    EngineInv (processMessagePre s now) := by
  obtain ⟨f1, f2, f3, _, f5, f6, _, _⟩ := processMessagePre_fields s now
  exact inv_of_fields f1 f2 f3 f5 f6 h

theorem inv_processMessage {s : EngineState} (m : InMessage) (now : Int)
    (hu : s.connectorUrl ≠ none) (h : EngineInv s) :
    EngineInv (processMessage s m now) := by
  have hpre := processMessagePre_fields s now
  have hinv1 : EngineInv (processMessagePre s now) := inv_processMessagePre now h
  have hu1 : (processMessagePre s now).connectorUrl ≠ none := by
    rw [hpre.2.1]; exact hu
  cases m with
  | setup v kt =>
    show EngineInv (processSetupMessage (processMessagePre s now) v kt)
    exact inv_processSetupMessage v kt hinv1
  | authState st =>
    show EngineInv (processAuthStateMessage (processMessagePre s now) st now)
    exact inv_processAuthStateMessage st now hu1 hinv1
  | connError e msg => exact hinv1
  | keepalive => exact hinv1
  | channelOpened ch =>
    show EngineInv
      (if ch ≠ 0 ∧ ((processMessagePre s now).channels.find?
          (fun c => c.id == ch)).isSome then
        { processMessagePre s now with
          channels := channelsSetStatus (processMessagePre s now).channels ch
            DXLinkChannelStatus.OPENED }
      else processMessagePre s now)
    split
    · exact inv_of_fields rfl rfl rfl rfl rfl hinv1
    · exact hinv1
  | channelClosed ch =>
    show EngineInv
      (if ch ≠ 0 ∧ ((processMessagePre s now).channels.find?
          (fun c => c.id == ch)).isSome then
        { processMessagePre s now with
          channels := channelsSetStatus (processMessagePre s now).channels ch
            DXLinkChannelStatus.CLOSED }
      else processMessagePre s now)
    split
    · exact inv_of_fields rfl rfl rfl rfl rfl hinv1
    · exact hinv1
  | channelError ch => exact hinv1
  | channelPayload ch ty => exact hinv1

theorem processTransportOpen_fields (s : EngineState) (now : Int) :
    (processTransportOpen s now).connectionState = s.connectionState ∧
    (processTransportOpen s now).connectorUrl = s.connectorUrl ∧
    (processTransportOpen s now).isFirstAuthState = s.isFirstAuthState ∧
    (processTransportOpen s now).authorizedSignalled = s.authorizedSignalled ∧
    (processTransportOpen s now).setupNoTokenObserved = s.setupNoTokenObserved := by
  unfold processTransportOpen
  dsimp only
  split <;>
    simp [sendAuthMessage, sendMessage, scheduleKeepalive, schedule, engineSetAuthState]

theorem inv_processTransportOpen {s : EngineState} (now : Int) (h : EngineInv s) :
    EngineInv (processTransportOpen s now) := by
  obtain ⟨f1, f2, f3, f4, f5⟩ := processTransportOpen_fields s now
  exact inv_of_fields f1 f2 f3 f4 f5 h

theorem inv_processTransportClose {s : EngineState} (h : EngineInv s) :
    EngineInv (processTransportClose s) := by
  unfold processTransportClose
  split
  · exact inv_disconnect (inv_of_fields rfl rfl rfl rfl rfl h)
  · exact inv_reconnect h

theorem inv_timeoutCheck {s : EngineState} (tm now : Int) (h : EngineInv s) :
    EngineInv (timeoutCheck s tm now) := by
  unfold timeoutCheck
  dsimp only
  split
  · exact inv_reconnect (inv_of_fields rfl rfl rfl rfl rfl h)
  · exact inv_of_fields rfl rfl rfl rfl rfl h

theorem inv_fireTimer {s : EngineState} (key : String) (now : Int)
    (h : EngineInv s) : EngineInv (fireTimer s key now) := by
  unfold fireTimer
  dsimp only
  split
  · exact h
  · split_ifs <;>
      first
        | exact inv_disconnect (inv_of_fields rfl rfl rfl rfl rfl h)
        | exact inv_timeoutCheck _ _ (inv_of_fields rfl rfl rfl rfl rfl h)
        | exact inv_of_fields rfl rfl rfl rfl rfl h

theorem inv_step {s : EngineState} (e : Event) (h : EngineInv s) :
    EngineInv (step s e) := by
  unfold step
  cases e with
  | connect url => exact inv_connect url h
  | disconnect => exact inv_disconnect h
  | reconnect => exact inv_reconnect h
  | setAuthToken t now => exact inv_setAuthToken t now h
  | openChannel sv p now => exact inv_openChannelOp sv p now h
  | channelClose cid now => exact inv_channelCloseOp cid now h
  | channelSend cid ty p now => exact inv_channelSendOp cid ty p now h
  | transportOpen now =>
    dsimp only
    split
    · exact h
    · exact inv_processTransportOpen now h
  | transportClose =>
    dsimp only
    split
    · exact h
    · exact inv_processTransportClose h
  | receive m now =>
    dsimp only
    split
    · exact h
    · rename_i hu
      exact inv_processMessage m now hu h
  | timerFire key now => exact inv_fireTimer key now h

theorem inv_initialState (cfg : Config) : EngineInv (initialState cfg) :=
  ⟨fun _ => rfl, fun _ => rfl, fun hc => by cases hc⟩

/-- Every reachable engine state satisfies the reachability invariant. -/
theorem inv_run (cfg : Config) (es : List Event) : EngineInv (run cfg es) := by
  have H : ∀ (l : List Event) (s : EngineState), EngineInv s →
      EngineInv (l.foldl step s) := by
    intro l
    induction l with
    | nil => intro s hs; exact hs
    | cons e rest ih => intro s hs; exact ih (step s e) (inv_step e hs)
  exact H es (initialState cfg) (inv_initialState cfg)

theorem requestActiveChannels_channels (s : EngineState) (now : Int) :
    (requestActiveChannels s now).channels =
      (s.channels.filter (fun c => c.status ≠ DXLinkChannelStatus.CLOSED)).map
        (fun c => { c with status := DXLinkChannelStatus.REQUESTED }) :=
  (requestActiveChannelsGo_spec now s.channels s).1

theorem requestActiveChannels_outbox (s : EngineState) (now : Int) :
    (requestActiveChannels s now).outbox =
      s.outbox ++
        (s.channels.filter (fun c => c.status ≠ DXLinkChannelStatus.CLOSED)).map
          (fun c => OutMessage.channelRequest c.id c.service c.parameters) :=
  (requestActiveChannelsGo_spec now s.channels s).2

/-- processSetupMessage resets the reconnect attempt counter whenever the
connection state is CONNECTING or CONNECTED, which by the reachability
invariant is always the case while a connector exists. -/
theorem processSetupMessage_attempts (s : EngineState) (v : String)
    (kt : Option Int)
    (h : s.connectionState = DXLinkConnectionState.CONNECTING ∨
         s.connectionState = DXLinkConnectionState.CONNECTED) :
    (processSetupMessage s v kt).reconnectAttempts = 0 := by
  unfold processSetupMessage
  dsimp only
  split
  · split <;> simp [engineSetConnectionState_eq, schedule, cancelSchedule]
  · rename_i hg
    exact absurd h hg

/-- The no-auth happy path of the spec: connect, transport open, server
SETUP with keepalive timeout 45 and no token ever set. -/
def happyTrace : List Event :=
  [Event.connect "wss://demo", Event.transportOpen 0,
   Event.receive (InMessage.setup "1.0" (some 45)) 1]

/-- A session in which the server signals AUTHORIZED before any SETUP has
been observed: the engine still enters CONNECTED. -/
def authFirstTrace : List Event :=
  [Event.connect "wss://demo", Event.transportOpen 0,
   Event.receive (InMessage.authState DXLinkAuthState.AUTHORIZED) 1]

/-- C1, counterexample: in the reachable state produced by authFirstTrace the
engine is CONNECTED although no server SETUP was observed in the session,
so the claimed conjunction (SETUP observed AND (no token ever set or
AUTHORIZED signalled)) fails: the engine enters CONNECTED on an AUTH_STATE
AUTHORIZED alone, without any SETUP. -/
theorem c1_counterexample :
    ¬ ((run defaultConfig authFirstTrace).connectionState =
          DXLinkConnectionState.CONNECTED →
        (run defaultConfig authFirstTrace).setupObserved = true ∧
        ((run defaultConfig authFirstTrace).tokenEverSet = false ∨
         (run defaultConfig authFirstTrace).authorizedSignalled = true)) := by
  intro hcl
  have h := hcl (by decide)
  exact absurd h.1 (by decide)

/-- C1, amended: for every reachable state of the engine, the connection
state is CONNECTED only when, in the current transport session, either the
server has signalled AUTHORIZED, or a server SETUP message was processed
while no auth token was remembered. -/
theorem c1_connected_requires_authorized_or_token_free_setup (cfg : Config)
    (tr : List Event)
    (h : (run cfg tr).connectionState = DXLinkConnectionState.CONNECTED) :
    (run cfg tr).authorizedSignalled = true ∨
    (run cfg tr).setupNoTokenObserved = true :=
  (inv_run cfg tr).2.2 h

/-- C1, witness: the amended theorem applied to the no-auth happy path. -/
theorem c1_witness :
    (run defaultConfig happyTrace).authorizedSignalled = true ∨
    (run defaultConfig happyTrace).setupNoTokenObserved = true :=
  c1_connected_requires_authorized_or_token_free_setup defaultConfig happyTrace
    (by decide)

/-- C2: in every reachable engine state, processing the first AUTH_STATE of
the transport session leaves the remembered auth token unchanged whatever
its state value; processing a later AUTH_STATE with state UNAUTHORIZED
clears the token; and both reconnect and disconnect leave the engine with
the first-auth-state marker set, so the next AUTH_STATE counts as first
again. -/
theorem c2_first_auth_state_informational (cfg : Config) (tr : List Event)
    (st : DXLinkAuthState) (now : Int) :
    ((run cfg tr).isFirstAuthState = true →
      (processAuthStateMessage (run cfg tr) st now).lastSettedAuthToken =
        (run cfg tr).lastSettedAuthToken) ∧
    ((run cfg tr).isFirstAuthState = false →
      (processAuthStateMessage (run cfg tr)
          DXLinkAuthState.UNAUTHORIZED now).lastSettedAuthToken = none) ∧
    (reconnect (run cfg tr)).isFirstAuthState = true ∧
    (disconnect (run cfg tr)).isFirstAuthState = true := by
  obtain ⟨h1, h2, _⟩ := inv_run cfg tr
  refine ⟨fun hf => processAuthStateMessage_first_keeps_token _ st now hf,
    fun hf => processAuthStateMessage_second_unauthorized_clears _ now hf,
    ?_, ?_⟩
  · unfold reconnect
    split
    · rename_i hg
      rcases hg with hns | hurl
      · exact h2 (h1 hns)
      · exact h2 hurl
    · simp [engineSetConnectionState_eq, schedule]
  · unfold disconnect
    split
    · rename_i hns
      exact h2 (h1 hns)
    · simp [engineSetConnectionState_eq, engineSetAuthState]

/-- A session with a token set, transport open, still awaiting the first
AUTH_STATE. -/
def tokenSessionTrace : List Event :=
  [Event.setAuthToken "T" 0, Event.connect "wss://demo", Event.transportOpen 0]

/-- The same session after the first, informational AUTH_STATE UNAUTHORIZED
has been processed. -/
def tokenSessionTrace2 : List Event :=
  tokenSessionTrace ++
    [Event.receive (InMessage.authState DXLinkAuthState.UNAUTHORIZED) 1]

/-- C2, witness: the first AUTH_STATE UNAUTHORIZED of the session keeps the
token, the second clears it, and reconnect resets the first marker. -/
theorem c2_witness :
    (processAuthStateMessage (run defaultConfig tokenSessionTrace)
        DXLinkAuthState.UNAUTHORIZED 5).lastSettedAuthToken =
      (run defaultConfig tokenSessionTrace).lastSettedAuthToken ∧
    (processAuthStateMessage (run defaultConfig tokenSessionTrace2)
        DXLinkAuthState.UNAUTHORIZED 6).lastSettedAuthToken = none ∧
    (reconnect (run defaultConfig tokenSessionTrace2)).isFirstAuthState = true := by
  have hA := c2_first_auth_state_informational defaultConfig tokenSessionTrace
    DXLinkAuthState.UNAUTHORIZED 5
  have hB := c2_first_auth_state_informational defaultConfig tokenSessionTrace2
    DXLinkAuthState.UNAUTHORIZED 6
  exact ⟨hA.1 (by decide), hB.2.1 (by decide), hB.2.2.1⟩

/-- A channel in status OPENED with one status listener, as left by a
CHANNEL_OPENED from the server. -/
def chanOpenEx : ChannelObj :=
  { id := 7, service := "FEED", parameters := [],
    status := DXLinkChannelStatus.OPENED, messageListeners := [],
    statusListeners := [{ lid := 3, throws := false }], errorListeners := [] }

/-- The channel above after a successful close: status CLOSED, listener sets
cleared. -/
def chanClosedEx : ChannelObj :=
  { id := 7, service := "FEED", parameters := [],
    status := DXLinkChannelStatus.CLOSED, messageListeners := [],
    statusListeners := [], errorListeners := [] }

/-- C3, counterexample: the first close of an OPENED channel succeeds and
produces exactly the CLOSED channel with cleared listeners, but a second
close on that channel is not a no-op: Channel.close forwards through
Channel.send, which throws Channel is not ready on a non-OPENED channel. -/
theorem c3_counterexample :
    ChannelObj.close chanOpenEx =
      Except.ok (chanClosedEx,
        { type := "CHANNEL_CANCEL", channel := 7, payload := [] }) ∧
    ChannelObj.close chanClosedEx = Except.error "Channel is not ready" :=
  ⟨rfl, rfl⟩

/-- C3, amended: calling close on a channel whose status is already CLOSED
fails synchronously with the Channel is not ready error and sends nothing;
the status guard that would make a second close a no-op is not
implemented. -/
theorem c3_second_close_throws (c : ChannelObj)
    (h : c.status = DXLinkChannelStatus.CLOSED) :
    ChannelObj.close c = Except.error "Channel is not ready" := by
  unfold ChannelObj.close ChannelObj.send
  simp [h]

/-- C3, witness: the amended theorem at the concrete closed channel. -/
theorem c3_witness :
    ChannelObj.close chanClosedEx = Except.error "Channel is not ready" :=
  c3_second_close_throws chanClosedEx (by decide)

/-- A listener set whose first listener throws and whose second does not. -/
def twoListeners : List Listener :=
  [{ lid := 0, throws := true }, { lid := 1, throws := false }]

/-- A channel whose message listener set is twoListeners. -/
def chanBadListeners : ChannelObj :=
  { id := 1, service := "FEED", parameters := [],
    status := DXLinkChannelStatus.OPENED, messageListeners := twoListeners,
    statusListeners := [], errorListeners := [] }

/-- C4, counterexample: on Channel.processPayloadMessage and on the engine
setConnectionState fan-out there is no try/catch, so with the listener set
twoListeners the first listener throws, the second listener is never
invoked, and the exception escapes the loop: listener isolation fails on
exactly these two fan-outs. -/
theorem c4_counterexample :
    ¬ (chanBadListeners.processPayloadMessageRun.1 = [0, 1] ∧
       chanBadListeners.processPayloadMessageRun.2 = false) ∧
    ¬ ((setConnectionStateRun DXLinkConnectionState.NOT_CONNECTED twoListeners
          DXLinkConnectionState.CONNECTING).2.1 = [0, 1] ∧
       (setConnectionStateRun DXLinkConnectionState.NOT_CONNECTED twoListeners
          DXLinkConnectionState.CONNECTING).2.2 = false) := by
  decide

/-- C4, amended: listener isolation holds for channel status listeners,
channel error listeners, the engine auth-state listeners and the engine
error listeners: every listener is invoked and thrown exceptions are caught
and logged.  It does not hold for channel message listeners or for the
engine connection-state listeners: there the listeners up to and including
the first throwing one run, the remaining ones are skipped, and the
exception escapes the fan-out. -/
theorem c4_listener_isolation (ch : ChannelObj) (st : DXLinkChannelStatus)
    (ls pre post : List Listener) (t : Listener) (a b : DXLinkAuthState)
    (cur new : DXLinkConnectionState)
    (hne : ch.status ≠ st) (hcn : cur ≠ new)
    (hpre : ∀ l ∈ pre, l.throws = false) (ht : t.throws = true) :
    (ch.setStatus st).2.1 = ch.statusListeners.map Listener.lid ∧
    (ch.setStatus st).2.2 =
      (ch.statusListeners.filter Listener.throws).map Listener.lid ∧
    ch.processErrorRun.1 = ch.errorListeners.map Listener.lid ∧
    (setAuthStateRun a ls b).2.1 = ls.map Listener.lid ∧
    (publishErrorRun ls).1 = ls.map Listener.lid ∧
    ChannelObj.processPayloadMessageRun
        { ch with messageListeners := pre ++ t :: post } =
      ((pre ++ [t]).map Listener.lid, true) ∧
    setConnectionStateRun cur (pre ++ t :: post) new =
      (new, (pre ++ [t]).map Listener.lid, true) := by
  refine ⟨?_, ?_, ?_, ?_, ?_, ?_, ?_⟩
  · unfold ChannelObj.setStatus
    rw [if_neg hne]
    simp [listenerLoopCaught_invoked]
  · unfold ChannelObj.setStatus
    rw [if_neg hne]
    simp [listenerLoopCaught_logged]
  · unfold ChannelObj.processErrorRun
    split
    · rename_i he
      simp [he]
    · simp [listenerLoopCaught_invoked]
  · simp [setAuthStateRun, listenerLoopCaught_invoked]
  · unfold publishErrorRun
    split
    · rename_i he
      simp [he]
    · simp [listenerLoopCaught_invoked]
  · unfold ChannelObj.processPayloadMessageRun
    exact listenerLoopPlain_throw pre post t hpre ht
  · unfold setConnectionStateRun
    rw [if_neg hcn]
    rw [listenerLoopPlain_throw pre post t hpre ht]

/-- C4, witness: the amended theorem at concrete listener sets. -/
theorem c4_witness :
    (chanOpenEx.setStatus DXLinkChannelStatus.CLOSED).2.1 = [3] ∧
    (chanOpenEx.setStatus DXLinkChannelStatus.CLOSED).2.2 = [] ∧
    chanOpenEx.processErrorRun.1 = [] ∧
    (setAuthStateRun DXLinkAuthState.UNAUTHORIZED twoListeners
        DXLinkAuthState.UNAUTHORIZED).2.1 = [0, 1] ∧
    (publishErrorRun twoListeners).1 = [0, 1] ∧
    ChannelObj.processPayloadMessageRun
        { chanOpenEx with
          messageListeners :=
            [{ lid := 4, throws := false }] ++
              { lid := 5, throws := true } :: [{ lid := 6, throws := false }] } =
      ([4, 5], true) ∧
    setConnectionStateRun DXLinkConnectionState.NOT_CONNECTED
        ([{ lid := 4, throws := false }] ++
          { lid := 5, throws := true } :: [{ lid := 6, throws := false }])
        DXLinkConnectionState.CONNECTING =
      (DXLinkConnectionState.CONNECTING, [4, 5], true) := by
  have h := c4_listener_isolation chanOpenEx DXLinkChannelStatus.CLOSED
    twoListeners [{ lid := 4, throws := false }] [{ lid := 6, throws := false }]
    { lid := 5, throws := true } DXLinkAuthState.UNAUTHORIZED
    DXLinkAuthState.UNAUTHORIZED DXLinkConnectionState.NOT_CONNECTED
    DXLinkConnectionState.CONNECTING (by decide) (by decide)
    (by decide) (by decide)
  exact ⟨h.1, h.2.1, h.2.2.1, h.2.2.2.1, h.2.2.2.2.1, h.2.2.2.2.2.1,
    h.2.2.2.2.2.2⟩

/-- A session whose server SETUP advertises a keepalive timeout of 0 seconds. -/
def zeroKeepaliveTrace : List Event :=
  [Event.connect "wss://demo", Event.transportOpen 0,
   Event.receive (InMessage.setup "1.0" (some 0)) 1]

/-- C5, counterexample: after processing that SETUP the peer-liveness TIMEOUT
timer is scheduled with a delay of 0 ms, not max(200 ms, 0 * 1000 ms) =
200 ms as the claim states: the 200 ms floor is applied only on
reschedules, not on the initial scheduling after SETUP. -/
theorem c5_counterexample :
    timersGet (run defaultConfig zeroKeepaliveTrace).timers "TIMEOUT" =
      some 0 ∧
    ¬ timersGet (run defaultConfig zeroKeepaliveTrace).timers "TIMEOUT" =
        some (max 200 (0 * 1000)) := by
  decide

/-- C5, amended: after a server SETUP is processed the TIMEOUT timer is
scheduled at exactly (keepaliveTimeout, default 60) * 1000 ms with no 200
ms floor, while every reschedule from the timeout check uses max(200 ms,
keepaliveTimeout * 1000 ms minus the time since the last received
message), which is never below 200 ms. -/
theorem c5_timeout_scheduling (s : EngineState) (v : String) (kt : Option Int)
    (tm now : Int) (h : now - s.lastReceivedMillis < tm) :
    timersGet (processSetupMessage s v kt).timers "TIMEOUT" =
      some ((kt.getD 60) * 1000) ∧
    timersGet (timeoutCheck s tm now).timers "TIMEOUT" =
      some (max 200 (tm - (now - s.lastReceivedMillis))) ∧
    200 ≤ max 200 (tm - (now - s.lastReceivedMillis)) := by
  refine ⟨?_, ?_, le_max_left _ _⟩
  · unfold processSetupMessage
    dsimp only
    simp [schedule, timersGet_timersSet_self]
  · unfold timeoutCheck
    dsimp only
    rw [if_neg (not_le.mpr h)]
    simp [schedule, timersGet_timersSet_self]

/-- C5, witness: the amended theorem at the initial state, a SETUP with
keepalive timeout 0, and a timeout check fired 5 ms after the last receive
with a 1000 ms budget. -/
theorem c5_witness :
    timersGet (processSetupMessage (initialState defaultConfig) "1.0"
        (some 0)).timers "TIMEOUT" = some (((some (0 : Int)).getD 60) * 1000) ∧
    timersGet (timeoutCheck (initialState defaultConfig) 1000 5).timers
        "TIMEOUT" =
      some (max 200 (1000 - (5 - (initialState defaultConfig).lastReceivedMillis))) ∧
    200 ≤ max 200 (1000 - (5 - (initialState defaultConfig).lastReceivedMillis)) :=
  c5_timeout_scheduling (initialState defaultConfig) "1.0" (some 0) 1000 5
    (by decide)

/-- C6: Channel.send fails synchronously with Channel is not ready whenever
the status is not OPENED, in particular after the channel became CLOSED,
and when the status is OPENED it forwards the message with the channel
field set to the channel id and the type and payload preserved. -/
theorem c6_send_requires_opened (c : ChannelObj) (m : ChannelMessage) :
    (c.status ≠ DXLinkChannelStatus.OPENED →
      c.send m = Except.error "Channel is not ready") ∧
    (c.status = DXLinkChannelStatus.CLOSED →
      c.send m = Except.error "Channel is not ready") ∧
    (c.status = DXLinkChannelStatus.OPENED →
      c.send m =
        Except.ok { type := m.type, channel := c.id, payload := m.payload }) := by
  refine ⟨fun h => ?_, fun h => ?_, fun h => ?_⟩ <;>
    simp [ChannelObj.send, h]

/-- C6, witness: send on the closed channel fails, send on the open channel
forwards with the channel id filled in. -/
theorem c6_witness :
    chanClosedEx.send { type := "FEED_SUBSCRIPTION", payload := [] } =
      Except.error "Channel is not ready" ∧
    chanOpenEx.send { type := "FEED_SUBSCRIPTION", payload := [] } =
      Except.ok { type := "FEED_SUBSCRIPTION", channel := 7, payload := [] } := by
  have h1 := c6_send_requires_opened chanClosedEx
    { type := "FEED_SUBSCRIPTION", payload := [] }
  have h2 := c6_send_requires_opened chanOpenEx
    { type := "FEED_SUBSCRIPTION", payload := [] }
  exact ⟨h1.2.1 (by decide), h2.2.2 (by decide)⟩

/-- C7: processing AUTH_STATE AUTHORIZED re-requests the active channels:
the channel table afterwards holds exactly the channels whose status was
not CLOSED, each with its status set back to REQUESTED, and for exactly
those channels, in table order, a CHANNEL_REQUEST carrying the channel id,
service and parameters is sent. -/
theorem c7_reauthorization_requests_active_channels (s : EngineState)
    (now : Int) :
    (processAuthStateMessage s DXLinkAuthState.AUTHORIZED now).channels =
      (s.channels.filter (fun c => c.status ≠ DXLinkChannelStatus.CLOSED)).map
        (fun c => { c with status := DXLinkChannelStatus.REQUESTED }) ∧
    (processAuthStateMessage s DXLinkAuthState.AUTHORIZED now).outbox =
      s.outbox ++
        (s.channels.filter (fun c => c.status ≠ DXLinkChannelStatus.CLOSED)).map
          (fun c => OutMessage.channelRequest c.id c.service c.parameters) := by
  unfold processAuthStateMessage
  dsimp only
  split_ifs <;>
    constructor <;>
      simp_all [engineSetAuthState, engineSetConnectionState_eq, cancelSchedule,
        requestActiveChannels_channels, requestActiveChannels_outbox]

/-- C8: for every reachable engine state, a reconnect call that is not a
no-op (the state is not NOT_CONNECTED and a connector exists) increments
the reconnect attempt counter and schedules the RECONNECT timer at exactly
(new attempt count) * 1000 ms, with no upper cap; and processing a server
SETUP while a connector exists resets the counter to 0. -/
theorem c8_reconnect_linear_backoff (cfg : Config) (tr : List Event)
    (v : String) (kt : Option Int) (now : Int) :
    ((run cfg tr).connectionState ≠ DXLinkConnectionState.NOT_CONNECTED →
      (run cfg tr).connectorUrl ≠ none →
      (reconnect (run cfg tr)).reconnectAttempts =
        (run cfg tr).reconnectAttempts + 1 ∧
      timersGet (reconnect (run cfg tr)).timers "RECONNECT" =
        some ((((run cfg tr).reconnectAttempts : Int) + 1) * 1000)) ∧
    ((run cfg tr).connectorUrl ≠ none →
      (processMessage (run cfg tr) (InMessage.setup v kt) now).reconnectAttempts
        = 0) := by
  constructor
  · intro hns hu
    unfold reconnect
    split
    · rename_i hg
      rcases hg with hg | hg
      · exact absurd hg hns
      · exact absurd hg hu
    · constructor
      · simp [engineSetConnectionState_eq, schedule]
      · simp [engineSetConnectionState_eq, schedule, timersGet_timersSet_self,
          Nat.cast_add]
  · intro hu
    have h1 := (inv_run cfg tr).1
    have hpre := processMessagePre_fields (run cfg tr) now
    show (processSetupMessage (processMessagePre (run cfg tr) now) v
        kt).reconnectAttempts = 0
    apply processSetupMessage_attempts
    rw [hpre.1]
    cases hc : (run cfg tr).connectionState with
    | NOT_CONNECTED => exact absurd (h1 hc) hu
    | CONNECTING => exact Or.inl rfl
    | CONNECTED => exact Or.inr rfl

/-- A session that is CONNECTING with a live connector, before any SETUP. -/
def connectingTrace : List Event :=
  [Event.connect "wss://demo", Event.transportOpen 0]

/-- C8, witness: reconnect from the connecting session increments the counter
from 0 to 1 and schedules RECONNECT at exactly 1000 ms, and a processed
SETUP resets the counter to 0. -/
theorem c8_witness :
    (reconnect (run defaultConfig connectingTrace)).reconnectAttempts =
      (run defaultConfig connectingTrace).reconnectAttempts + 1 ∧
    timersGet (reconnect (run defaultConfig connectingTrace)).timers "RECONNECT" =
      some ((((run defaultConfig connectingTrace).reconnectAttempts : Int) + 1)
        * 1000) ∧
    (processMessage (run defaultConfig connectingTrace)
        (InMessage.setup "1.0" (some 60)) 1).reconnectAttempts = 0 := by
  have h := c8_reconnect_linear_backoff defaultConfig connectingTrace "1.0"
    (some 60) 1
  have h1 := h.1 (by decide) (by decide)
  exact ⟨h1.1, h1.2, h.2 (by decide)⟩

/-- C9: in the version-2 AuthManager, when a previous auth state was known at
the time the registered handler runs, the completion returned by auth is
resolved twice when the incoming state is AUTHORIZED (the handler calls
resolve unconditionally and then resolves again), and when the incoming
state is not AUTHORIZED the handler calls resolve and then reject with no
error value. -/
theorem c9_v2_auth_double_resolve (prev st : DXLinkAuthState) :
    (st = DXLinkAuthState.AUTHORIZED →
      authCompletionActs (some prev) st =
        [CompletionAct.resolve, CompletionAct.resolve]) ∧
    (st ≠ DXLinkAuthState.AUTHORIZED →
      authCompletionActs (some prev) st =
        [CompletionAct.resolve, CompletionAct.rejectNoValue]) := by
  constructor
  · intro h
    subst h
    rfl
  · intro h
    simp [authCompletionActs, h]

/-- C9, witness: the two completion call sequences at concrete states. -/
theorem c9_witness :
    authCompletionActs (some DXLinkAuthState.UNAUTHORIZED)
        DXLinkAuthState.AUTHORIZED =
      [CompletionAct.resolve, CompletionAct.resolve] ∧
    authCompletionActs (some DXLinkAuthState.AUTHORIZED)
        DXLinkAuthState.UNAUTHORIZED =
      [CompletionAct.resolve, CompletionAct.rejectNoValue] := by
  have h1 := c9_v2_auth_double_resolve DXLinkAuthState.UNAUTHORIZED
    DXLinkAuthState.AUTHORIZED
  have h2 := c9_v2_auth_double_resolve DXLinkAuthState.AUTHORIZED
    DXLinkAuthState.UNAUTHORIZED
  exact ⟨h1.1 rfl, h2.2 (by decide)⟩

/-- C10: the engine auth-state listener fan-out runs on every setAuthState
call, with no suppression when the new state equals the previous one,
whereas setConnectionState with an unchanged state and Channel.setStatus
with an unchanged status notify nobody and change nothing. -/
theorem c10_auth_listeners_not_suppressed (a b : DXLinkAuthState)
    (cst : DXLinkConnectionState) (ls : List Listener) (ch : ChannelObj) :
    (setAuthStateRun a ls b).2.1 = ls.map Listener.lid ∧
    (setAuthStateRun a ls a).2.1 = ls.map Listener.lid ∧
    setConnectionStateRun cst ls cst = (cst, [], false) ∧
    ch.setStatus ch.status = (ch, [], []) := by
  refine ⟨?_, ?_, ?_, ?_⟩
  · simp [setAuthStateRun, listenerLoopCaught_invoked]
  · simp [setAuthStateRun, listenerLoopCaught_invoked]
  · simp [setConnectionStateRun]
  · simp [ChannelObj.setStatus]
